import Mathlib

/-!
Verification development for `GeoData/GeoData.py`, a container for
geophysical sensor measurements.

The shallow embedding below translates the Python source into Lean:

* numpy float entries become `NFloat` (an exact rational plus a
  distinguished not-a-number element); 2-D numpy arrays become
  `Arr = List (List NFloat)` (row-major);
* Python dictionaries become association lists in insertion order;
  `dict.keys()` enumeration is modelled as that insertion order;
* methods that can raise become functions into `Except String _`;
* the two external collaborators (the coordinate-transform module and
  the scattered-data interpolation routine `scipy.interpolate.griddata`)
  are passed in as explicit function arguments, as the specification
  treats them as pure collaborators;
* for the aliasing behaviour of `timeslice` (which shallow-copies the
  object so that the copy shares the `data` dictionary), a small heap
  model gives the dictionary reference semantics: a `GeoObj` holds an
  index into a `Heap` of dictionaries.
-/

/-- Model of a numpy floating-point entry: either not-a-number or an
exact value (floats are modelled by rationals). -/
inductive NFloat where
  | nan : NFloat
  | val : ℚ → NFloat
deriving DecidableEq

/-- A 2-D numpy array, row major. -/
abbrev Arr := List (List NFloat)

/-- `np.isnan` on one entry. -/
def isnanV : NFloat → Bool
  | NFloat.nan => true
  | NFloat.val _ => false

/-- Python `==` on two numpy float entries: IEEE semantics, so
not-a-number compares unequal to everything, including itself. -/
def valEqPy : NFloat → NFloat → Bool
  | NFloat.val x, NFloat.val y => decide (x = y)
  | _, _ => false

/-- One position of the NaN-masked comparison used by `GeoData.__eq__`
(`np.ma.allequal` with the mask `np.isnan`): a position that is
not-a-number in either operand is masked out and treated as matching. -/
def maskedEqVal : NFloat → NFloat → Bool
  | NFloat.nan, _ => true
  | _, NFloat.nan => true
  | NFloat.val x, NFloat.val y => decide (x = y)

/-- NaN-masked comparison of two rows (same length required). -/
def maskedEqRow (r1 r2 : List NFloat) : Bool :=
  decide (r1.length = r2.length) &&
    (r1.zip r2).all (fun p => maskedEqVal p.1 p.2)

/-- NaN-masked comparison of two arrays (same shape required;
numpy broadcasting is not modelled). -/
def maskedEqArr (a1 a2 : Arr) : Bool :=
  decide (a1.length = a2.length) &&
    (a1.zip a2).all (fun p => maskedEqRow p.1 p.2)

/-- Lookup in an association list with a default (Python `d[k]` where
the key is known to be present; the default covers the ill-typed case). -/
def lookupD {α : Type} (l : List (String × α)) (k : String) (d : α) : α :=
  ((l.find? (fun e => e.1 = k)).map Prod.snd).getD d

/-- Python `set(l1) == set(l2)` on two key lists. -/
def setEqStr (l1 l2 : List String) : Bool :=
  l1.all (fun k => decide (k ∈ l2)) && l2.all (fun k => decide (k ∈ l1))

/-- The `GeoData` container: the five canonical attributes set by
`GeoData.__init__` (`data`, `coordnames`, `dataloc`, `sensorloc`,
`times`).  The `data` dictionary is an association list in insertion
order. -/
structure GeoData where
  data : List (String × Arr)
  coordnames : String
  dataloc : Arr
  sensorloc : Arr
  times : Arr
deriving DecidableEq

/-- `GeoData.datanames`: the keys of the `data` dictionary. -/
def datanames (g : GeoData) : List String := g.data.map Prod.fst

/-- `GeoData.__eq__`: key sets of `data` must agree as sets; every
`data` entry, then `dataloc`, `sensorloc` and `times` are compared by
the NaN-masked rule; `coordnames` is compared as a plain string.  Any
mismatch short-circuits to `false`. -/
def geoEq (g1 g2 : GeoData) : Bool :=
  if !(setEqStr (datanames g1) (datanames g2)) then false
  else if !((datanames g1).all
      (fun k => maskedEqArr (lookupD g1.data k []) (lookupD g2.data k []))) then false
  else if g1.coordnames != g2.coordnames then false
  else if !(maskedEqArr g1.dataloc g2.dataloc) then false
  else if !(maskedEqArr g1.sensorloc g2.sensorloc) then false
  else if !(maskedEqArr g1.times g2.times) then false
  else true

/-- The equality relation as the specification words it: identical key
sets; every value array NaN-masked equal; coordinate-system strings
exactly equal; the three location/time arrays NaN-masked equal. -/
def geoEqSpecP (g1 g2 : GeoData) : Prop :=
  (∀ k, k ∈ datanames g1 ↔ k ∈ datanames g2) ∧
  (∀ k ∈ datanames g1,
    maskedEqArr (lookupD g1.data k []) (lookupD g2.data k []) = true) ∧
  g1.coordnames = g2.coordnames ∧
  maskedEqArr g1.dataloc g2.dataloc = true ∧
  maskedEqArr g1.sensorloc g2.sensorloc = true ∧
  maskedEqArr g1.times g2.times = true

/-- Model of a Python value as passed by a reader function: a
dictionary of named arrays, a string, a numpy numeric array, or some
other object carrying none of the arithmetic attributes (covering
`None`, plain lists, and the like). -/
inductive PyObj where
  | pdict : List (String × Arr) → PyObj
  | pstr : String → PyObj
  | pnd : Arr → PyObj
  | pother : PyObj
deriving DecidableEq

/-- The attribute names probed by `is_numeric`. -/
def numericAttrs : List String :=
  ["__add__", "__sub__", "__mul__", "__div__", "__pow__"]

/-- Python 2 `hasattr` restricted to the five arithmetic attribute
names: every numpy array type carries all five as type-level methods
(whatever its dtype); `str` carries only `__add__` and `__mul__`;
dictionaries and other objects carry none of the five. -/
def hasattrPy (o : PyObj) (a : String) : Bool :=
  match o with
  | PyObj.pnd _ => true
  | PyObj.pstr _ => a == "__add__" || a == "__mul__"
  | PyObj.pdict _ => false
  | PyObj.pother => false

/-- `is_numeric`: all five arithmetic attributes present. -/
def is_numeric (o : PyObj) : Bool := numericAttrs.all (hasattrPy o)

/-- The 5-tuple a reader function returns, one dynamic value per slot. -/
structure RawTuple where
  rdata : PyObj
  rcoord : PyObj
  rdataloc : PyObj
  rsensorloc : PyObj
  rtimes : PyObj

/-- `GeoData.__init__`: unpack the reader's 5-tuple and run the
assertions in source order (`data` a dict, `coordnames` a string, and
each of `dataloc`, `sensorloc`, `times` a numpy array passing
`is_numeric`); a failed assertion raises, modelled as `Except.error`
with the assertion message. -/
def geoInit (t : RawTuple) : Except String GeoData :=
  match t.rdata with
  | PyObj.pdict d =>
    match t.rcoord with
    | PyObj.pstr c =>
      match t.rdataloc with
      | PyObj.pnd dl =>
        if is_numeric (PyObj.pnd dl) then
          match t.rsensorloc with
          | PyObj.pnd sl =>
            if is_numeric (PyObj.pnd sl) then
              match t.rtimes with
              | PyObj.pnd ts =>
                if is_numeric (PyObj.pnd ts) then
                  Except.ok { data := d, coordnames := c, dataloc := dl,
                              sensorloc := sl, times := ts }
                else Except.error "times needs to be a numeric array"
              | _ => Except.error "times needs to be a numpy array"
            else Except.error "sensorloc needs to be a numeric array"
          | _ => Except.error "sensorloc needs to be a numpy array"
        else Except.error "dataloc needs to be a numeric array"
      | _ => Except.error "dataloc needs to be a numpy array"
    | _ => Except.error "coordnames needs to be a string"
  | _ => Except.error "data needs to be a dictionary"

/-- Is this value a dictionary? -/
def isDictB : PyObj → Bool
  | PyObj.pdict _ => true
  | _ => false

/-- Is this value a string? -/
def isStrB : PyObj → Bool
  | PyObj.pstr _ => true
  | _ => false

/-- Is this value a numpy array satisfying the numeric predicate? -/
def isNumNdB (o : PyObj) : Bool :=
  (match o with | PyObj.pnd _ => true | _ => false) && is_numeric o

/-- Key list of a dictionary value (junk on the other constructors,
which the theorem never reaches there). -/
def pyKeys : PyObj → List String
  | PyObj.pdict d => d.map Prod.fst
  | _ => []

/-- Heap of Python dictionaries: a `GeoData` object's `data` attribute
is a reference (an index) into this heap, so that `copy(self)` can
share the dictionary with the copy while the other four attributes are
plain values. -/
abbrev Heap := List (List (String × Arr))

/-- A `GeoData` instance under reference semantics for its `data`
dictionary (used for `timeslice`, whose source applies `copy(self)`
and then assigns into the shared dictionary). -/
structure GeoObj where
  dataRef : ℕ
  coordnames : String
  dataloc : Arr
  sensorloc : Arr
  times : Arr
deriving DecidableEq

/-- Dereference a dictionary in the heap. -/
def heapGet (h : Heap) (r : ℕ) : List (String × Arr) := h.getD r []

/-- Overwrite a dictionary in the heap. -/
def heapSet (h : Heap) (r : ℕ) (d : List (String × Arr)) : Heap := h.set r d

/-- The `timelist` argument of `timeslice`: a list of integer array
indices, or a list of posix timestamps. -/
inductive TimeSel where
  | arrSel : List ℕ → TimeSel
  | timeSel : List NFloat → TimeSel

/-- `np.where(np.in1d(times[:,0], timelist))[0]`: the positions whose
first-column entry equals (by numpy `==`, so never at not-a-number)
some member of `timelist`, in ascending position order. -/
def timeIndices (times : Arr) (ts : List NFloat) : List ℕ :=
  (List.range times.length).filter
    (fun i => ts.any (fun t => valEqPy ((times.getD i []).getD 0 NFloat.nan) t))

/-- `times[loclist]` row selection; a numpy fancy index out of range
raises, modelled as `Except.error`. -/
def rowSelect (a : Arr) (l : List ℕ) : Except String Arr :=
  if l.all (fun i => decide (i < a.length)) then
    Except.ok (l.map (fun i => a.getD i []))
  else Except.error "index out of range"

/-- `arr[:, loclist]` column selection on one value array. -/
def colSelectE (a : Arr) (l : List ℕ) : Except String Arr :=
  if a.all (fun row => l.all (fun i => decide (i < row.length))) then
    Except.ok (a.map (fun row => l.map (fun i => row.getD i NFloat.nan)))
  else Except.error "index out of range"

/-- The in-place loop `for idata in gd2.datanames(): gd2.data[idata] =
gd2.data[idata][:, loclist]`, applied to the whole (shared)
dictionary. -/
def sliceDict (d : List (String × Arr)) (l : List ℕ) :
    Except String (List (String × Arr)) :=
  match d with
  | [] => Except.ok []
  | e :: rest =>
    match colSelectE e.2 l with
    | Except.error msg => Except.error msg
    | Except.ok a2 =>
      match sliceDict rest l with
      | Except.error msg => Except.error msg
      | Except.ok r2 => Except.ok ((e.1, a2) :: r2)

/-- Body of `timeslice` once `loclist` is fixed: `gd2 = copy(self)`
(sharing the `data` dictionary reference), `gd2.times =
gd2.times[loclist]`, and the dictionary updated in place through the
shared reference. -/
def timesliceGo (h : Heap) (g : GeoObj) (l : List ℕ) :
    Except String (Heap × GeoObj) :=
  match rowSelect g.times l with
  | Except.error msg => Except.error msg
  | Except.ok times2 =>
    match sliceDict (heapGet h g.dataRef) l with
    | Except.error msg => Except.error msg
    | Except.ok d2 =>
      Except.ok (heapSet h g.dataRef d2, { g with times := times2 })

/-- `GeoData.timeslice`: dispatch on `listtype` (`None` and `"Array"`
use `timelist` directly as indices; `"Time"` keeps the positions whose
`times[i, 0]` is a member of `timelist`; an integer list under
`"Time"` is compared as timestamp values; any other `listtype` leaves
`loclist` unbound, and a timestamp list used directly as a fancy index
is rejected by numpy — both raise, modelled as `Except.error`). -/
def timeslice (h : Heap) (g : GeoObj) (sel : TimeSel)
    (listtype : Option String) : Except String (Heap × GeoObj) :=
  match listtype, sel with
  | none, TimeSel.arrSel l => timesliceGo h g l
  | some "Array", TimeSel.arrSel l => timesliceGo h g l
  | some "Time", TimeSel.timeSel ts => timesliceGo h g (timeIndices g.times ts)
  | some "Time", TimeSel.arrSel l =>
      timesliceGo h g (timeIndices g.times (l.map (fun n => NFloat.val n)))
  | _, _ => Except.error "invalid timeslice arguments"

/-- The interpolation methods accepted by `interpolate`
(`curavalmethods` in the source; `interpmethods` is the same list). -/
def curavalmethods : List String := ["linear", "nearest", "cubic"]

/-- `GeoData.__changecoords__`: convert the stored sample locations
into the target system.  The two coordinate-transform collaborators
(`CT.sphereical2Cartisian`, `CT.cartisian2Sphereical`) are passed in as
pure functions; any pairing other than Spherical-to-Cartesian,
Cartesian-to-Spherical or identical systems raises `ValueError`. -/
def changecoords (s2c c2s : Arr → Arr) (coordnames : String) (dataloc : Arr)
    (newcoordname : String) : Except String Arr :=
  if coordnames = "Spherical" ∧ newcoordname = "Cartesian" then
    Except.ok (s2c dataloc)
  else if coordnames = "Cartesian" ∧ newcoordname = "Spherical" then
    Except.ok (c2s dataloc)
  else if coordnames = newcoordname then Except.ok dataloc
  else Except.error "Wrong inputs for coordnate names was given."

/-- The degenerate-axis flags of `interpolate` (source lines 127-133):
`keepaxis[k]` is false — the axis is dropped — exactly when every entry
of column `k` of `new_coords` equals the first row's entry (by numpy
`==`), or every entry of column `k` of the converted old coordinates
equals its first row's entry.  The column count is taken from the
first row of `new_coords`. -/
def keepaxisFun (new_coords curcoords : Arr) : List Bool :=
  (List.range (new_coords.getD 0 []).length).map (fun k =>
    !(new_coords.all (fun row =>
        valEqPy (row.getD k NFloat.nan) ((new_coords.getD 0 []).getD k NFloat.nan)) ||
      curcoords.all (fun row =>
        valEqPy (row.getD k NFloat.nan) ((curcoords.getD 0 []).getD k NFloat.nan))))

/-- `arr[:, keepaxis]`: keep the columns whose flag is true. -/
def selectCols (a : Arr) (keep : List Bool) : Arr :=
  a.map (fun row => ((row.zip keep).filter (fun p => p.2)).map Prod.fst)

/-- `self.data[iparam][:, itime]`: one time column of a value array. -/
def colOf (a : Arr) (t : ℕ) : List NFloat := a.map (fun row => row.getD t NFloat.nan)

/-- The type of the `scipy.interpolate.griddata` collaborator:
`griddata points values xi method fill_value` returns the interpolated
vector at the query points `xi`. -/
abbrev GridData := Arr → List NFloat → Arr → String → NFloat → List NFloat

/-- The per-parameter loop of `interpolate`: `New_param` starts as
`np.zeros((NNlocs, Nt))` and column `itime` is assigned the `griddata`
result for that time step (the `method in interpmethods` test is the
same list as the already-passed `curavalmethods` test; when it were to
fail the zero initialisation would remain, modelled by the `getD`
default). -/
def interpParam (gdf : GridData) (curc newc : Arr) (m : String) (fv : NFloat)
    (nt nn : ℕ) (a : Arr) : Arr :=
  (List.range nn).map (fun i =>
    (List.range nt).map (fun t =>
      (if m ∈ curavalmethods then gdf curc (colOf a t) newc m fv
       else []).getD i (NFloat.val 0)))

/-- `GeoData.interpolate`: validate the method, convert the old sample
locations, drop the degenerate axes from both coordinate sets,
interpolate every value array at every time step onto the reduced new
coordinates, and replace `data`, `dataloc` (with the REDUCED
`new_coords`, source line 153) and `coordnames`.  In the source the
method mutates `self`; here the updated container is returned, and a
raise is `Except.error` (both raises occur before any field of `self`
is assigned). -/
def interpolate (s2c c2s : Arr → Arr) (gdf : GridData) (g : GeoData)
    (new_coords : Arr) (newcoordname m : String) (fv : NFloat) :
    Except String GeoData :=
  if m ∉ curavalmethods then
    Except.error "Must be one of the following methods: linear, nearest, cubic"
  else
    match changecoords s2c c2s g.coordnames g.dataloc newcoordname with
    | Except.error msg => Except.error msg
    | Except.ok curcoords =>
      let keep := keepaxisFun new_coords curcoords
      let curc2 := selectCols curcoords keep
      let newc2 := selectCols new_coords keep
      let nt := g.times.length
      let nn := newc2.length
      Except.ok { g with
        data := g.data.map (fun e => (e.1, interpParam gdf curc2 newc2 m fv nt nn e.2)),
        dataloc := newc2,
        coordnames := newcoordname }

/-- The identity coordinate transform, used to instantiate the
collaborator arguments on the identity coordinate pairing. -/
def idArr : Arr → Arr := fun a => a

/-- A concrete `griddata` collaborator returning the fill value at
every query point. -/
def gdfFill : GridData := fun _ _ xi _ fv => xi.map (fun _ => fv)

/-- A concrete container: one field `p` with two locations and one
time bin, Cartesian coordinates. -/
def gEx : GeoData :=
  ⟨[("p", [[NFloat.val 1], [NFloat.val 2]])], "Cartesian",
    [[NFloat.val 0, NFloat.val 0], [NFloat.val 1, NFloat.val 0]],
    [[NFloat.val 9]], [[NFloat.val 0, NFloat.val 1]]⟩

/-- Concrete new sample locations whose second column is constant, so
that `interpolate` drops axis 1. -/
def ncEx : Arr := [[NFloat.val 5, NFloat.val 7], [NFloat.val 6, NFloat.val 7]]

/-- The container `interpolate gEx ncEx "Cartesian" "nearest"` produces
under `gdfFill`: the value array is filled, and `dataloc` holds the
axis-reduced new locations. -/
def resEx : GeoData :=
  ⟨[("p", [[NFloat.nan], [NFloat.nan]])], "Cartesian",
    [[NFloat.val 5], [NFloat.val 6]], [[NFloat.val 9]],
    [[NFloat.val 0, NFloat.val 1]]⟩

/-- A leaf node of the hierarchical file: an array, or a string (a
string written through `createArray` reads back as a fixed-width
character array, which `read_h5_main` coerces back to `str`; the two
steps are collapsed into this constructor). -/
inductive H5Node where
  | nArr : Arr → H5Node
  | nStr : String → H5Node
deriving DecidableEq

/-- The hierarchical file written by `write_h5`: leaf nodes at the
root, and one group of array nodes per dictionary-valued attribute. -/
structure H5File where
  rootNodes : List (String × H5Node)
  groups : List (String × List (String × Arr))
deriving DecidableEq

/-- One entry of the tuple rebuilt by `read_h5_main`: a group read back
as a mapping, a plain array, or a coerced string. -/
inductive H5Field where
  | fDict : List (String × H5Node) → H5Field
  | fArr : Arr → H5Field
  | fStr : String → H5Field
deriving DecidableEq

/-- The fixed canonical attribute list `VARNAMES`. -/
def VARNAMES : List String := ["data", "coordnames", "dataloc", "sensorloc", "times"]

/-- Split a character list at the posix separator. -/
def splitSlashAux : List Char → List (List Char)
  | [] => [[]]
  | c :: rest =>
    let r := splitSlashAux rest
    if c = '/' then [] :: r
    else (c :: r.headD []) :: r.tail

/-- `pathparts`: the non-empty components of a posix path (the source
peels components off with `posixpath.split`; on the `"/"`-rooted
one-level paths used here that is exactly the non-empty pieces of
splitting at the separator). -/
def pathparts (p : String) : List String :=
  ((splitSlashAux p.data).map (fun cs => String.mk cs)).filter (fun c => c ≠ "")

/-- `GeoData.write_h5` on a container whose attributes are exactly the
five canonical fields: each non-dictionary attribute becomes a root
array node (the string `coordnames` included), and the one
dictionary-valued attribute `data` becomes the group `"data"` holding
one array node per key. -/
def write_h5 (g : GeoData) : H5File :=
  { rootNodes := [("coordnames", H5Node.nStr g.coordnames),
                  ("dataloc", H5Node.nArr g.dataloc),
                  ("sensorloc", H5Node.nArr g.sensorloc),
                  ("times", H5Node.nArr g.times)],
    groups := [("data", g.data)] }

/-- `read_h5_main`: walk all groups (the root `"/"` first, then each
subgroup, in walk order) into `output`; for each canonical name, first
look for a group whose first path component matches — and, as in the
source, fetch the matched entry through `output.keys()[npath]` where
`npath` indexes the FILTERED list `outarr`, not `output.keys()`
itself — otherwise take the root leaf of that name (a character array
coerced to a string); a name found nowhere is silently skipped. -/
def read_h5_main (f : H5File) : List H5Field :=
  let output : List (String × List (String × H5Node)) :=
    ("/", f.rootNodes) ::
      f.groups.map (fun gr =>
        ("/" ++ gr.1, gr.2.map (fun e => (e.1, H5Node.nArr e.2))))
  let keysList := output.map Prod.fst
  let outarr := (keysList.filter (fun p => (pathparts p).length > 0)).map pathparts
  VARNAMES.filterMap (fun ivar =>
    match outarr.findIdx? (fun ipath => ipath.getD 0 "" == ivar) with
    | some npath => some (H5Field.fDict (lookupD output (keysList.getD npath "") []))
    | none =>
      match f.rootNodes.find? (fun e => e.1 == ivar) with
      | some (_, H5Node.nStr s) => some (H5Field.fStr s)
      | some (_, H5Node.nArr a) => some (H5Field.fArr a)
      | none => none)

/-- One comparison of the `__eq__` loop over `data` entries when the
two sides came from different places (original array vs node read from
the file): two arrays compare NaN-masked; a string node never equals
an array. -/
def maskedEqNode : H5Node → H5Node → Bool
  | H5Node.nArr a, H5Node.nArr b => maskedEqArr a b
  | _, _ => false

/-- `GeoData.__eq__` applied to the container rebuilt from the file
(fields `d, c, dl, sl, t`) against the original `g`. -/
def dynGeoEq (d : List (String × H5Node)) (c : String) (dl sl t : Arr)
    (g : GeoData) : Bool :=
  setEqStr (d.map Prod.fst) (datanames g) &&
  (d.map Prod.fst).all (fun k =>
    maskedEqNode (lookupD d k (H5Node.nArr []))
      (H5Node.nArr (lookupD g.data k []))) &&
  (c == g.coordnames) &&
  maskedEqArr dl g.dataloc && maskedEqArr sl g.sensorloc &&
  maskedEqArr t g.times

/-- The round trip of the specification: write `g`, read the file
back, construct a container from the 5-tuple (the constructor's
assertions pass: the first field is a dictionary and the rest are a
string and three numeric arrays), and compare it with `g` under
`__eq__`. -/
def roundtripEq (g : GeoData) : Bool :=
  match read_h5_main (write_h5 g) with
  | [H5Field.fDict d, H5Field.fStr c, H5Field.fArr dl, H5Field.fArr sl, H5Field.fArr t] =>
      dynGeoEq d c dl sl t g
  | _ => false

/-- A concrete container for the round-trip run. -/
def c1Ex : GeoData :=
  ⟨[("Ne", [[NFloat.val 1]])], "Spherical",
    [[NFloat.val 0, NFloat.val 0, NFloat.val 0]],
    [[NFloat.val 1, NFloat.val 2, NFloat.val 3]],
    [[NFloat.val 0, NFloat.val 1]]⟩

/-- The early-return chain of `__eq__` is the conjunction of its six
checks. -/
theorem geoEq_eq_and (g1 g2 : GeoData) :
    geoEq g1 g2 =
      (setEqStr (datanames g1) (datanames g2) &&
       ((datanames g1).all
         (fun k => maskedEqArr (lookupD g1.data k []) (lookupD g2.data k []))) &&
       (g1.coordnames == g2.coordnames) &&
       maskedEqArr g1.dataloc g2.dataloc &&
       maskedEqArr g1.sensorloc g2.sensorloc &&
       maskedEqArr g1.times g2.times) := by
  unfold geoEq
  cases hs : setEqStr (datanames g1) (datanames g2) <;>
  cases ha : (datanames g1).all
      (fun k => maskedEqArr (lookupD g1.data k []) (lookupD g2.data k [])) <;>
  cases hc : g1.coordnames == g2.coordnames <;>
  cases h4 : maskedEqArr g1.dataloc g2.dataloc <;>
  cases h5 : maskedEqArr g1.sensorloc g2.sensorloc <;>
  cases h6 : maskedEqArr g1.times g2.times <;>
  simp [hs, ha, hc, h4, h5, h6, bne]

/-- C4: the equality operator returns true exactly under the NaN-masked
conjunction, and on the two concrete `times` examples it returns
`true` for `[[1, NaN]]` vs `[[1, 999]]` and `false` for `[[1, 2]]` vs
`[[1, 3]]`. -/
theorem geoEq_iff_spec :
    (∀ g1 g2 : GeoData, geoEq g1 g2 = true ↔ geoEqSpecP g1 g2) ∧
    geoEq
      { data := [("p", [[NFloat.val 1]])], coordnames := "Cartesian",
        dataloc := [[NFloat.val 0]], sensorloc := [[NFloat.val 0]],
        times := [[NFloat.val 1, NFloat.nan]] }
      { data := [("p", [[NFloat.val 1]])], coordnames := "Cartesian",
        dataloc := [[NFloat.val 0]], sensorloc := [[NFloat.val 0]],
        times := [[NFloat.val 1, NFloat.val 999]] } = true ∧
    geoEq
      { data := [("p", [[NFloat.val 1]])], coordnames := "Cartesian",
        dataloc := [[NFloat.val 0]], sensorloc := [[NFloat.val 0]],
        times := [[NFloat.val 1, NFloat.val 2]] }
      { data := [("p", [[NFloat.val 1]])], coordnames := "Cartesian",
        dataloc := [[NFloat.val 0]], sensorloc := [[NFloat.val 0]],
        times := [[NFloat.val 1, NFloat.val 3]] } = false := by
  refine ⟨fun g1 g2 => ?_, by decide, by decide⟩
  rw [geoEq_eq_and]
  unfold geoEqSpecP setEqStr
  simp only [Bool.and_eq_true, List.all_eq_true, decide_eq_true_iff, beq_iff_eq]
  constructor
  · rintro ⟨⟨⟨⟨⟨⟨hf, hb⟩, hv⟩, hc⟩, h4⟩, h5⟩, h6⟩
    exact ⟨fun k => ⟨fun h => hf k h, fun h => hb k h⟩, hv, hc, h4, h5, h6⟩
  · rintro ⟨hk, hv, hc, h4, h5, h6⟩
    exact ⟨⟨⟨⟨⟨⟨fun k h => (hk k).mp h, fun k h => (hk k).mpr h⟩, hv⟩, hc⟩, h4⟩, h5⟩, h6⟩

/-- `is_numeric` holds on every numpy array (all five arithmetic
attributes are type-level methods of `ndarray`). -/
theorem is_numeric_pnd (a : Arr) : is_numeric (PyObj.pnd a) = true := rfl

/-- `is_numeric` fails on strings (`__sub__` is missing). -/
theorem is_numeric_pstr (s : String) : is_numeric (PyObj.pstr s) = false := rfl

/-- `is_numeric` fails on dictionaries. -/
theorem is_numeric_pdict (d : List (String × Arr)) :
    is_numeric (PyObj.pdict d) = false := rfl

/-- `is_numeric` fails on objects without arithmetic attributes. -/
theorem is_numeric_pother : is_numeric PyObj.pother = false := rfl

/-- C7: construction from a reader succeeds exactly when the 5-tuple is
well-typed (dictionary, string, and three numeric numpy arrays), and on
success `datanames()` is the key set of the reader's dictionary. -/
theorem geoInit_ok_iff_welltyped :
    ∀ t : RawTuple,
      ((geoInit t).isOk =
        (isDictB t.rdata && isStrB t.rcoord && isNumNdB t.rdataloc &&
         isNumNdB t.rsensorloc && isNumNdB t.rtimes)) ∧
      (∀ g : GeoData, geoInit t = Except.ok g → datanames g = pyKeys t.rdata) := by
  rintro ⟨a, b, c, d, e⟩
  cases a <;>
    try (simp [geoInit, isDictB, isStrB, isNumNdB, pyKeys, datanames,
      is_numeric_pnd, is_numeric_pstr, is_numeric_pdict, is_numeric_pother,
      Except.isOk, Except.toBool]; done)
  cases b <;>
    try (simp [geoInit, isDictB, isStrB, isNumNdB, pyKeys, datanames,
      is_numeric_pnd, is_numeric_pstr, is_numeric_pdict, is_numeric_pother,
      Except.isOk, Except.toBool]; done)
  cases c <;>
    try (simp [geoInit, isDictB, isStrB, isNumNdB, pyKeys, datanames,
      is_numeric_pnd, is_numeric_pstr, is_numeric_pdict, is_numeric_pother,
      Except.isOk, Except.toBool]; done)
  cases d <;>
    try (simp [geoInit, isDictB, isStrB, isNumNdB, pyKeys, datanames,
      is_numeric_pnd, is_numeric_pstr, is_numeric_pdict, is_numeric_pother,
      Except.isOk, Except.toBool]; done)
  cases e <;>
    simp [geoInit, isDictB, isStrB, isNumNdB, pyKeys, datanames,
      is_numeric_pnd, is_numeric_pstr, is_numeric_pdict, is_numeric_pother,
      Except.isOk, Except.toBool]

/-- A successful column selection returns the per-row selection. -/
theorem colSelectE_ok (a : Arr) (l : List ℕ) (a2 : Arr) :
    colSelectE a l = Except.ok a2 →
    a2 = a.map (fun row => l.map (fun i => row.getD i NFloat.nan)) := by
  unfold colSelectE
  split
  · intro h
    cases h
    rfl
  · intro h
    cases h

/-- A successful row selection returns the rows at the given indices. -/
theorem rowSelect_ok (a : Arr) (l : List ℕ) (a2 : Arr) :
    rowSelect a l = Except.ok a2 →
    a2 = l.map (fun i => a.getD i []) := by
  unfold rowSelect
  split
  · intro h
    cases h
    rfl
  · intro h
    cases h

/-- A successful dictionary slice maps column selection over every
entry, preserving keys and their order. -/
theorem sliceDict_ok (d : List (String × Arr)) (l : List ℕ)
    (d2 : List (String × Arr)) :
    sliceDict d l = Except.ok d2 →
    d2 = d.map (fun e =>
      (e.1, e.2.map (fun row => l.map (fun i => row.getD i NFloat.nan)))) := by
  induction d generalizing d2 with
  | nil =>
    intro h
    unfold sliceDict at h
    cases h
    rfl
  | cons e rest ih =>
    intro h
    unfold sliceDict at h
    cases hc : colSelectE e.2 l with
    | error msg => rw [hc] at h; cases h
    | ok a2 =>
      rw [hc] at h
      cases hr : sliceDict rest l with
      | error msg => rw [hr] at h; cases h
      | ok r2 =>
        rw [hr] at h
        cases h
        have ha := colSelectE_ok e.2 l a2 hc
        have hrest := ih r2 hr
        rw [List.map_cons, ← ha, ← hrest]

/-- Writing the shared dictionary back and reading it through the same
reference returns the written dictionary. -/
theorem heapGet_heapSet (h : Heap) (r : ℕ) (d : List (String × Arr))
    (hr : r < h.length) : heapGet (heapSet h r d) r = d := by
  unfold heapGet heapSet
  rw [List.getD_eq_getElem?_getD, List.getElem?_set_eq_of_lt d hr]
  rfl

/-- C8: with an index-list selector under `"Array"` (and identically
under the unspecified default), a successful `timeslice` returns an
object whose `times` are the selected rows in selector order, whose
`data` dictionary holds every value array with exactly the selected
time columns (all locations kept), and whose `coordnames`, `dataloc`
and `sensorloc` equal the source's. -/
theorem timeslice_array_result (h : Heap) (g : GeoObj) (l : List ℕ)
    (h2 : Heap) (g2 : GeoObj) (href : g.dataRef < h.length)
    (hok : timeslice h g (TimeSel.arrSel l) (some "Array") = Except.ok (h2, g2)) :
    g2.times = l.map (fun i => g.times.getD i []) ∧
    heapGet h2 g2.dataRef =
      (heapGet h g.dataRef).map (fun e =>
        (e.1, e.2.map (fun row => l.map (fun i => row.getD i NFloat.nan)))) ∧
    g2.coordnames = g.coordnames ∧ g2.dataloc = g.dataloc ∧
    g2.sensorloc = g.sensorloc ∧
    timeslice h g (TimeSel.arrSel l) none = Except.ok (h2, g2) := by
  have hgo : timesliceGo h g l = Except.ok (h2, g2) := hok
  unfold timesliceGo at hgo
  cases ht : rowSelect g.times l with
  | error msg => rw [ht] at hgo; cases hgo
  | ok times2 =>
    rw [ht] at hgo
    cases hd : sliceDict (heapGet h g.dataRef) l with
    | error msg => rw [hd] at hgo; cases hgo
    | ok d2 =>
      rw [hd] at hgo
      cases hgo
      refine ⟨rowSelect_ok g.times l times2 ht, ?_, rfl, rfl, rfl, ?_⟩
      · rw [heapGet_heapSet h g.dataRef d2 href]
        exact sliceDict_ok (heapGet h g.dataRef) l d2 hd
      · show timesliceGo h g l = _
        unfold timesliceGo
        rw [ht, hd]

/-- C8 witness: a concrete two-time container sliced at indices
`[1, 0, 1]` (order kept, duplicate allowed). -/
theorem timeslice_array_result_witness :
    (⟨0, "Cartesian", [[NFloat.val 0]], [[NFloat.val 9]],
      [[NFloat.val 10], [NFloat.val 20]]⟩ : GeoObj).dataRef <
      ([[("p", [[NFloat.val 1, NFloat.val 2]])]] : Heap).length ∧
    ({ dataRef := 0, coordnames := "Cartesian", dataloc := [[NFloat.val 0]],
       sensorloc := [[NFloat.val 9]],
       times := [[NFloat.val 20], [NFloat.val 10], [NFloat.val 20]] } : GeoObj).times =
      [1, 0, 1].map (fun i =>
        (⟨0, "Cartesian", [[NFloat.val 0]], [[NFloat.val 9]],
          [[NFloat.val 10], [NFloat.val 20]]⟩ : GeoObj).times.getD i []) := by
  have hok : timeslice [[("p", [[NFloat.val 1, NFloat.val 2]])]]
      (⟨0, "Cartesian", [[NFloat.val 0]], [[NFloat.val 9]],
        [[NFloat.val 10], [NFloat.val 20]]⟩ : GeoObj)
      (TimeSel.arrSel [1, 0, 1]) (some "Array") =
      Except.ok ([[("p", [[NFloat.val 2, NFloat.val 1, NFloat.val 2]])]],
        { dataRef := 0, coordnames := "Cartesian", dataloc := [[NFloat.val 0]],
          sensorloc := [[NFloat.val 9]],
          times := [[NFloat.val 20], [NFloat.val 10], [NFloat.val 20]] }) := by
    rfl
  exact ⟨by decide,
    (timeslice_array_result [[("p", [[NFloat.val 1, NFloat.val 2]])]]
      (⟨0, "Cartesian", [[NFloat.val 0]], [[NFloat.val 9]],
        [[NFloat.val 10], [NFloat.val 20]]⟩ : GeoObj)
      [1, 0, 1] [[("p", [[NFloat.val 2, NFloat.val 1, NFloat.val 2]])]]
      { dataRef := 0, coordnames := "Cartesian", dataloc := [[NFloat.val 0]],
        sensorloc := [[NFloat.val 9]],
        times := [[NFloat.val 20], [NFloat.val 10], [NFloat.val 20]] }
      (by decide) hok).1⟩

/-- C2: `timeslice` mutates its source.  On the concrete container
with one value array `p = [[1, 2]]` and two time bins, slicing to index
`[0]` succeeds, but afterwards the dictionary reachable from the
SOURCE object's `data` reference holds the sliced array `[[1]]`, no
longer the original `[[1, 2]]` — `copy(self)` shares the dictionary
and the loop assigns into it — and the result object still shares that
same dictionary reference with the source. -/
theorem timeslice_mutates_source :
    timeslice [[("p", [[NFloat.val 1, NFloat.val 2]])]]
      (⟨0, "Cartesian", [[NFloat.val 0]], [[NFloat.val 9]],
        [[NFloat.val 10, NFloat.val 10], [NFloat.val 20, NFloat.val 20]]⟩ : GeoObj)
      (TimeSel.arrSel [0]) none =
      Except.ok ([[("p", [[NFloat.val 1]])]],
        { dataRef := 0, coordnames := "Cartesian", dataloc := [[NFloat.val 0]],
          sensorloc := [[NFloat.val 9]],
          times := [[NFloat.val 10, NFloat.val 10]] }) ∧
    heapGet [[("p", [[NFloat.val 1]])]] 0 ≠
      heapGet [[("p", [[NFloat.val 1, NFloat.val 2]])]] 0 ∧
    ({ dataRef := 0, coordnames := "Cartesian", dataloc := [[NFloat.val 0]],
       sensorloc := [[NFloat.val 9]],
       times := [[NFloat.val 10, NFloat.val 10]] } : GeoObj).dataRef =
      (⟨0, "Cartesian", [[NFloat.val 0]], [[NFloat.val 9]],
        [[NFloat.val 10, NFloat.val 10], [NFloat.val 20, NFloat.val 20]]⟩ : GeoObj).dataRef := by
  exact ⟨rfl, by decide, rfl⟩

/-- C9: under the `"Time"` selector the kept positions are exactly
those whose `times[i, 0]` equals a member of the selector, they are
produced in ascending array order, `timeslice` then proceeds with
precisely those positions, and on the concrete container with
`times[:,0] = [10, 20, 30]` and selector `[20]` exactly position 1 is
kept. -/
theorem timeslice_time_selector :
    (∀ (times : Arr) (ts : List NFloat),
      List.Pairwise (fun a b => a < b) (timeIndices times ts) ∧
      (∀ i, i ∈ timeIndices times ts ↔
        i < times.length ∧
          ts.any (fun t => valEqPy ((times.getD i []).getD 0 NFloat.nan) t) = true)) ∧
    (∀ (h : Heap) (g : GeoObj) (ts : List NFloat),
      timeslice h g (TimeSel.timeSel ts) (some "Time") =
        timesliceGo h g (timeIndices g.times ts)) ∧
    timeIndices [[NFloat.val 10, NFloat.val 0], [NFloat.val 20, NFloat.val 0],
      [NFloat.val 30, NFloat.val 0]] [NFloat.val 20] = [1] := by
  refine ⟨fun times ts => ⟨?_, fun i => ?_⟩, fun h g ts => rfl, by decide⟩
  · exact (List.pairwise_lt_range times.length).filter _
  · unfold timeIndices
    simp [List.mem_filter, List.mem_range]

/-- C6: an unsupported interpolation method, or a coordinate pairing
that is neither Spherical-to-Cartesian, Cartesian-to-Spherical nor
identical systems, makes `interpolate` raise `ValueError`; both raises
happen before any field of the container is assigned, so no updated
container is produced. -/
theorem interpolate_invalid_errors (s2c c2s : Arr → Arr) (gdf : GridData)
    (g : GeoData) (nc : Arr) (nn m : String) (fv : NFloat)
    (hbad : m ∉ curavalmethods ∨
      (¬(g.coordnames = "Spherical" ∧ nn = "Cartesian") ∧
       ¬(g.coordnames = "Cartesian" ∧ nn = "Spherical") ∧
       g.coordnames ≠ nn)) :
    ∃ e, interpolate s2c c2s gdf g nc nn m fv = Except.error e := by
  rcases hbad with hm | ⟨h1, h2, h3⟩
  · unfold interpolate
    rw [if_pos hm]
    exact ⟨_, rfl⟩
  · unfold interpolate
    by_cases hm : m ∉ curavalmethods
    · rw [if_pos hm]
      exact ⟨_, rfl⟩
    · rw [if_neg hm]
      unfold changecoords
      rw [if_neg h1, if_neg h2, if_neg h3]
      exact ⟨_, rfl⟩

/-- C6 witness: the unsupported method `"quadratic"` on a concrete
container is rejected. -/
theorem interpolate_invalid_errors_witness :
    ∃ e, interpolate (fun a => a) (fun a => a)
      (fun _ _ xi _ fv => xi.map (fun _ => fv))
      ⟨[("p", [[NFloat.val 1]])], "Cartesian", [[NFloat.val 0]],
        [[NFloat.val 9]], [[NFloat.val 0]]⟩
      [[NFloat.val 5]] "Cartesian" "quadratic" NFloat.nan = Except.error e :=
  interpolate_invalid_errors (fun a => a) (fun a => a)
    (fun _ _ xi _ fv => xi.map (fun _ => fv))
    ⟨[("p", [[NFloat.val 1]])], "Cartesian", [[NFloat.val 0]],
      [[NFloat.val 9]], [[NFloat.val 0]]⟩
    [[NFloat.val 5]] "Cartesian" "quadratic" NFloat.nan (Or.inl (by decide))

/-- C10: a successful `interpolate` leaves `times` and `sensorloc`
untouched, keeps the value dictionary's keys, and reshapes every value
array to one row per row of the caller's `new_coords` (column dropping
never changes the row count) with one column per time bin of
`times`. -/
theorem interpolate_preserves_frame (s2c c2s : Arr → Arr) (gdf : GridData)
    (g : GeoData) (nc : Arr) (nn m : String) (fv : NFloat) (res : GeoData)
    (hok : interpolate s2c c2s gdf g nc nn m fv = Except.ok res) :
    res.times = g.times ∧ res.sensorloc = g.sensorloc ∧
    datanames res = datanames g ∧
    (∀ e ∈ res.data, e.2.length = nc.length ∧
      ∀ row ∈ e.2, row.length = g.times.length) := by
  unfold interpolate at hok
  split at hok
  · cases hok
  · cases hc : changecoords s2c c2s g.coordnames g.dataloc nn with
    | error msg => rw [hc] at hok; cases hok
    | ok curcoords =>
      rw [hc] at hok
      cases hok
      refine ⟨rfl, rfl, by simp [datanames], ?_⟩
      intro e he
      obtain ⟨e0, _, rfl⟩ := List.mem_map.mp he
      constructor
      · simp [interpParam, selectCols]
      · intro row hrow
        obtain ⟨i, _, rfl⟩ := List.mem_map.mp hrow
        simp [interpParam]

/-- C10 witness: a concrete run with a dropped axis; the value array
ends with 2 rows (the rows of `new_coords`) and 1 time column. -/
theorem interpolate_preserves_frame_witness :
    resEx.times = gEx.times ∧ resEx.sensorloc = gEx.sensorloc ∧
    datanames resEx = datanames gEx ∧
    (∀ e ∈ resEx.data, e.2.length = ncEx.length ∧
      ∀ row ∈ e.2, row.length = gEx.times.length) :=
  interpolate_preserves_frame idArr idArr gdfFill gEx ncEx
    "Cartesian" "nearest" NFloat.nan resEx rfl

/-- C3 counterexample: on `gEx` with new locations `ncEx` (whose
second column is constant), `interpolate` succeeds but stores the
axis-REDUCED locations `[[5], [6]]` in `dataloc`, not the caller's
un-reduced `ncEx` (source line 137 rebinds `new_coords` to
`new_coords[:, keepaxis]` before line 153 assigns it). -/
theorem interpolate_dataloc_not_unreduced :
    Except.map GeoData.dataloc
      (interpolate idArr idArr gdfFill gEx ncEx "Cartesian" "nearest" NFloat.nan) =
      Except.ok [[NFloat.val 5], [NFloat.val 6]] ∧
    ([[NFloat.val 5], [NFloat.val 6]] : Arr) ≠ ncEx := by
  exact ⟨rfl, by decide⟩

/-- C3 amended: after a successful `interpolate`, the container's
`dataloc` equals `new_coords` restricted to the kept (non-degenerate)
axes, and `coordnames` equals the requested system. -/
theorem interpolate_sets_dataloc_and_coords (s2c c2s : Arr → Arr)
    (gdf : GridData) (g : GeoData) (nc : Arr) (nn m : String) (fv : NFloat)
    (cc : Arr) (res : GeoData)
    (hcc : changecoords s2c c2s g.coordnames g.dataloc nn = Except.ok cc)
    (hok : interpolate s2c c2s gdf g nc nn m fv = Except.ok res) :
    res.dataloc = selectCols nc (keepaxisFun nc cc) ∧ res.coordnames = nn := by
  unfold interpolate at hok
  split at hok
  · cases hok
  · rw [hcc] at hok
    cases hok
    exact ⟨rfl, rfl⟩

/-- C3 witness: the amended statement at the concrete run on `gEx`. -/
theorem interpolate_sets_dataloc_and_coords_witness :
    resEx.dataloc =
      selectCols ncEx (keepaxisFun ncEx gEx.dataloc) ∧
    resEx.coordnames = "Cartesian" :=
  interpolate_sets_dataloc_and_coords idArr idArr gdfFill gEx ncEx
    "Cartesian" "nearest" NFloat.nan gEx.dataloc resEx rfl rfl

/-- A kept-axis flag `!(a || b)` is false exactly when one of the two
all-equal tests fired. -/
theorem keepFlag_false_iff (a b : Bool) : (!(a || b)) = false ↔ a = true ∨ b = true := by
  cases a <;> cases b <;> simp

/-- C5: axis `k` is dropped (its `keepaxis` flag is false) exactly when
every entry of column `k` of `new_coords` equals the entry of the first
row, or every entry of column `k` of the converted old locations equals
the entry of its first row; the flags are computed once over the
column indices of the first row of `new_coords`. -/
theorem keepaxis_false_iff (nc cc : Arr) (k : ℕ)
    (hk : k < (nc.getD 0 []).length) :
    (keepaxisFun nc cc).getD k true = false ↔
      (∀ row ∈ nc,
        valEqPy (row.getD k NFloat.nan) ((nc.getD 0 []).getD k NFloat.nan) = true) ∨
      (∀ row ∈ cc,
        valEqPy (row.getD k NFloat.nan) ((cc.getD 0 []).getD k NFloat.nan) = true) := by
  unfold keepaxisFun
  rw [List.getD_eq_getElem?_getD, List.getElem?_map, List.getElem?_range hk]
  simp only [Option.map_some', Option.getD_some]
  rw [keepFlag_false_iff]
  simp only [List.all_eq_true]

/-- C5 witness: on `ncEx` (constant second column) against the old
locations of `gEx` (varying second column... the first disjunct fires),
axis 1 is dropped. -/
theorem keepaxis_false_iff_witness :
    (1 < (ncEx.getD 0 []).length) ∧
    ((keepaxisFun ncEx gEx.dataloc).getD 1 true = false ↔
      (∀ row ∈ ncEx,
        valEqPy (row.getD 1 NFloat.nan) ((ncEx.getD 0 []).getD 1 NFloat.nan) = true) ∨
      (∀ row ∈ gEx.dataloc,
        valEqPy (row.getD 1 NFloat.nan)
          ((gEx.dataloc.getD 0 []).getD 1 NFloat.nan) = true)) :=
  ⟨by decide, keepaxis_false_iff ncEx gEx.dataloc 1 (by decide)⟩

/-- C1: the write/read round trip does NOT reproduce the container.
For every container, the `data` slot of the tuple read back is the
ROOT mapping (`coordnames`, `dataloc`, `sensorloc`, `times`), not the
`"data"` group's mapping: `read_h5_main` finds the group at position
`npath = 0` of the filtered list `outarr` but then fetches
`output.keys()[0]`, which is the root path `"/"` that the filter had
removed.  On the concrete container `c1Ex` the rebuilt container is
therefore not `__eq__`-equal to the original (the key sets already
differ). -/
theorem read_write_roundtrip_fails :
    (∀ g : GeoData,
      read_h5_main (write_h5 g) =
        [H5Field.fDict [("coordnames", H5Node.nStr g.coordnames),
                      ("dataloc", H5Node.nArr g.dataloc),
                      ("sensorloc", H5Node.nArr g.sensorloc),
                      ("times", H5Node.nArr g.times)],
         H5Field.fStr g.coordnames, H5Field.fArr g.dataloc,
         H5Field.fArr g.sensorloc, H5Field.fArr g.times]) ∧
    roundtripEq c1Ex = false := by
  exact ⟨fun g => rfl, by decide⟩
